import Mathlib

/-!
Formal model of the flightpath-server MAVLink client
(`internal/mavlink/client.go`) and the PX4 mode codec
(`internal/services/telemetry.go` / the control service), as a shallow
embedding in Lean 4.  Machine integers are modelled as `Nat`/`Int`,
Go `float64` values as `Rat`, timestamps as `Int` milliseconds, and the
transport as an explicit list of emitted outbound messages.
-/

namespace Flightpath

/-! ## PX4 mode constants (`internal/mavlink/client.go`) -/

def PX4_MAIN_MODE_MANUAL : Nat := 1
def PX4_MAIN_MODE_ALTCTL : Nat := 2
def PX4_MAIN_MODE_POSCTL : Nat := 3
def PX4_MAIN_MODE_AUTO : Nat := 4
def PX4_MAIN_MODE_ACRO : Nat := 5
def PX4_MAIN_MODE_OFFBOARD : Nat := 6
def PX4_MAIN_MODE_STABILIZED : Nat := 7
def PX4_MAIN_MODE_RATTITUDE : Nat := 8

def PX4_AUTO_MODE_READY : Nat := 1
def PX4_AUTO_MODE_TAKEOFF : Nat := 2
def PX4_AUTO_MODE_LOITER : Nat := 3
def PX4_AUTO_MODE_MISSION : Nat := 4
def PX4_AUTO_MODE_RTL : Nat := 5
def PX4_AUTO_MODE_LAND : Nat := 6
def PX4_AUTO_MODE_FOLLOW : Nat := 8
def PX4_AUTO_MODE_PRECLAND : Nat := 9

/-- Modelled from the spec: the `PX4_CUSTOM_MAIN_MODE_*` constants referenced
by `mapFlightModeToPX4` live in a mavlink-package file that is not under
`src/`; per the spec the encoder packs the same PX4 main-mode identifiers used
by the decoder, so each equals the corresponding `PX4_MAIN_MODE_*` value. -/
def PX4_CUSTOM_MAIN_MODE_MANUAL : Nat := PX4_MAIN_MODE_MANUAL

/-- Modelled from the spec: see `PX4_CUSTOM_MAIN_MODE_MANUAL`. -/
def PX4_CUSTOM_MAIN_MODE_ALTCTL : Nat := PX4_MAIN_MODE_ALTCTL

/-- Modelled from the spec: see `PX4_CUSTOM_MAIN_MODE_MANUAL`. -/
def PX4_CUSTOM_MAIN_MODE_POSCTL : Nat := PX4_MAIN_MODE_POSCTL

/-- Modelled from the spec: see `PX4_CUSTOM_MAIN_MODE_MANUAL`. -/
def PX4_CUSTOM_MAIN_MODE_AUTO : Nat := PX4_MAIN_MODE_AUTO

/-- Modelled from the spec: see `PX4_CUSTOM_MAIN_MODE_MANUAL`. -/
def PX4_CUSTOM_MAIN_MODE_OFFBOARD : Nat := PX4_MAIN_MODE_OFFBOARD

/-- Modelled from the spec: see `PX4_CUSTOM_MAIN_MODE_MANUAL`. -/
def PX4_CUSTOM_MAIN_MODE_STABILIZED : Nat := PX4_MAIN_MODE_STABILIZED

/-- Modelled from the spec: the `PX4_CUSTOM_SUB_MODE_AUTO_*` constants
referenced by `mapFlightModeToPX4` are not under `src/`; per the spec they
equal the corresponding `PX4_AUTO_MODE_*` sub-mode identifiers. -/
def PX4_CUSTOM_SUB_MODE_AUTO_MISSION : Nat := PX4_AUTO_MODE_MISSION

/-- Modelled from the spec: see `PX4_CUSTOM_SUB_MODE_AUTO_MISSION`. -/
def PX4_CUSTOM_SUB_MODE_AUTO_RTL : Nat := PX4_AUTO_MODE_RTL

/-- Modelled from the spec: see `PX4_CUSTOM_SUB_MODE_AUTO_MISSION`. -/
def PX4_CUSTOM_SUB_MODE_AUTO_LAND : Nat := PX4_AUTO_MODE_LAND

/-- Modelled from the spec: see `PX4_CUSTOM_SUB_MODE_AUTO_MISSION`. -/
def PX4_CUSTOM_SUB_MODE_AUTO_TAKEOFF : Nat := PX4_AUTO_MODE_TAKEOFF

/-- Modelled from the spec: see `PX4_CUSTOM_SUB_MODE_AUTO_MISSION`. -/
def PX4_CUSTOM_SUB_MODE_AUTO_LOITER : Nat := PX4_AUTO_MODE_LOITER

/-! ## Generic flight-mode enumeration (proto `drone.FlightMode`) -/

inductive FlightMode where
  | unspecified
  | manual
  | stabilized
  | altitudeHold
  | positionHold
  | guided
  | auto
  | returnHome
  | land
  | takeoff
  | loiter
deriving DecidableEq, Repr

/-- Errors returned by the client / services, as an inductive taxonomy. -/
inductive Err where
  | notConnected
  | uploadInProgress
  | sendFailed
  | missionUploadFailed (code : Nat)
  | missionUploadTimeout
  | unsupportedFlightMode
deriving DecidableEq, Repr

/-- Model of `encodePX4AutoMode` (control service): `main_mode | (sub_mode << 16)`. -/
def encodePX4AutoMode (subMode : Nat) : Nat :=
  PX4_CUSTOM_MAIN_MODE_AUTO ||| (subMode <<< 16)

/-- Model of `mapFlightModeToPX4` (control service): generic mode to PX4 custom mode. -/
def mapFlightModeToPX4 (mode : FlightMode) : Except Err Nat :=
  match mode with
  | .manual => .ok PX4_CUSTOM_MAIN_MODE_MANUAL
  | .stabilized => .ok PX4_CUSTOM_MAIN_MODE_STABILIZED
  | .altitudeHold => .ok PX4_CUSTOM_MAIN_MODE_ALTCTL
  | .positionHold => .ok PX4_CUSTOM_MAIN_MODE_POSCTL
  | .guided => .ok PX4_CUSTOM_MAIN_MODE_OFFBOARD
  | .auto => .ok (encodePX4AutoMode PX4_CUSTOM_SUB_MODE_AUTO_MISSION)
  | .returnHome => .ok (encodePX4AutoMode PX4_CUSTOM_SUB_MODE_AUTO_RTL)
  | .land => .ok (encodePX4AutoMode PX4_CUSTOM_SUB_MODE_AUTO_LAND)
  | .takeoff => .ok (encodePX4AutoMode PX4_CUSTOM_SUB_MODE_AUTO_TAKEOFF)
  | .loiter => .ok (encodePX4AutoMode PX4_CUSTOM_SUB_MODE_AUTO_LOITER)
  | .unspecified => .error .unsupportedFlightMode

/-- Model of `mapPX4ModeToFlightMode` (`internal/services/telemetry.go`): PX4 custom
mode back to the generic mode.  Main mode is `customMode & 0xFF`, sub mode is
`(customMode >> 16) & 0xFF`; unmatched main modes fall through to MANUAL and
unmatched AUTO sub-modes fall through to AUTO. -/
def mapPX4ModeToFlightMode (customMode : Nat) : FlightMode :=
  let mainMode := customMode &&& 0xFF
  let subMode := (customMode >>> 16) &&& 0xFF
  if mainMode = PX4_MAIN_MODE_MANUAL then .manual
  else if mainMode = PX4_MAIN_MODE_STABILIZED then .stabilized
  else if mainMode = PX4_MAIN_MODE_ALTCTL then .altitudeHold
  else if mainMode = PX4_MAIN_MODE_POSCTL then .positionHold
  else if mainMode = PX4_MAIN_MODE_OFFBOARD then .guided
  else if mainMode = PX4_MAIN_MODE_AUTO then
    if subMode = PX4_AUTO_MODE_MISSION then .auto
    else if subMode = PX4_AUTO_MODE_RTL then .returnHome
    else if subMode = PX4_AUTO_MODE_LAND then .land
    else if subMode = PX4_AUTO_MODE_TAKEOFF then .takeoff
    else if subMode = PX4_AUTO_MODE_LOITER then .loiter
    else .auto
  else .manual

/-! ## Inbound MAVLink messages (gomavlib `common` dialect, fields used) -/

structure MessageHeartbeat where
  baseMode : Nat
  customMode : Nat
deriving DecidableEq, Repr

structure MessageGlobalPositionInt where
  lat : Int
  lon : Int
  alt : Int
  vx : Int
  vy : Int
  vz : Int
deriving DecidableEq, Repr

structure MessageAttitude where
  roll : Rat
  pitch : Rat
  yaw : Rat
deriving DecidableEq, Repr

structure MessageVfrHud where
  heading : Int
  groundspeed : Rat
  climb : Rat
deriving DecidableEq, Repr

structure MessageSysStatus where
  onboardControlSensorsEnabled : Nat
  onboardControlSensorsHealth : Nat
  voltageBattery : Nat
  currentBattery : Int
  batteryRemaining : Int
deriving DecidableEq, Repr

structure MessageGpsRawInt where
  eph : Nat
  satellitesVisible : Nat
deriving DecidableEq, Repr

structure MessageMissionRequestInt where
  seq : Nat
deriving DecidableEq, Repr

structure MessageMissionAck where
  ackType : Nat
deriving DecidableEq, Repr

structure MessageMissionCurrent where
  seq : Nat
deriving DecidableEq, Repr

structure MessageMissionItemReached where
  seq : Nat
deriving DecidableEq, Repr

/-- Model of `MAV_MISSION_ACCEPTED` result code. -/
def MAV_MISSION_ACCEPTED : Nat := 0

/-- Model of `MAV_MODE_FLAG_SAFETY_ARMED` (bit 7 of `base_mode`). -/
def MAV_MODE_FLAG_SAFETY_ARMED : Nat := 128

/-- Model of `MAV_MODE_FLAG_CUSTOM_MODE_ENABLED` (bit 0 of `base_mode`). -/
def MAV_MODE_FLAG_CUSTOM_MODE_ENABLED : Nat := 1

/-! ## Waypoints (proto `drone.Waypoint`) -/

inductive WaypointAction where
  | unspecifiedAction
  | waypointAction
  | takeoffAction
  | landAction
  | loiterAction
  | holdAction
deriving DecidableEq, Repr

structure Waypoint where
  sequence : Nat
  action : WaypointAction
  latitude : Rat
  longitude : Rat
  altitude : Rat
  holdTimeSec : Rat
  acceptanceRadius : Rat
  heading : Rat
deriving DecidableEq, Repr

/-- MAVLink command identifiers used by the client. -/
inductive MavCmd where
  | navWaypoint
  | navLoiterUnlim
  | navLoiterTime
  | navLand
  | navTakeoff
  | navReturnToLaunch
  | componentArmDisarm
  | doSetMode
deriving DecidableEq, Repr

/-- Position-target type mask sent by `GoToPosition`: ignore velocity,
acceleration, yaw and yaw rate (bits 3..8, 10, 11). -/
def goToPositionTypeMask : Nat :=
  8 ||| 16 ||| 32 ||| 64 ||| 128 ||| 256 ||| 1024 ||| 2048

/-- Go's `int32(x)` conversion of a float: truncation toward zero. -/
def truncToInt (x : Rat) : Int :=
  if 0 ≤ x then x.floor else x.ceil

/-- Outbound MAVLink messages written to the transport (fields used). -/
inductive OutMsg where
  | missionCount (targetSystem count : Nat)
  | missionItemInt (targetSystem seq : Nat) (command : MavCmd)
      (current autocontinue : Nat)
      (param1 param2 param3 param4 : Rat) (x y : Int) (z : Rat)
  | commandLong (targetSystem : Nat) (command : MavCmd)
      (param1 param2 param7 : Rat)
  | setPositionTargetGlobalInt (targetSystem typeMask : Nat)
      (latInt lonInt : Int) (alt : Rat)
  | missionClearAll (targetSystem : Nat)
  | missionSetCurrent (targetSystem seq : Nat)
deriving DecidableEq, Repr

/-! ## Client state (`internal/mavlink/client.go`) -/

structure TelemetryData where
  latitude : Rat
  longitude : Rat
  altitude : Rat
  velocityX : Rat
  velocityY : Rat
  velocityZ : Rat
  roll : Rat
  pitch : Rat
  yaw : Rat
  heading : Rat
  groundSpeed : Rat
  verticalSpeed : Rat
  batteryVoltage : Rat
  batteryRemaining : Int
  batteryCurrent : Rat
  gpsAccuracy : Rat
  satelliteCount : Int
  sensorsHealthy : Bool
  customMode : Nat
  baseMode : Nat
  lastUpdate : Int
deriving DecidableEq, Repr

structure MissionState where
  uploading : Bool
  downloading : Bool
  waypoints : List Waypoint
  currentIndex : Int
  totalCount : Nat
  /-- Whether the `UploadComplete` channel is non-nil. -/
  uploadComplete : Bool
  currentWaypoint : Int
  totalWaypoints : Int
  missionActive : Bool
deriving DecidableEq, Repr

structure ClientState where
  systemID : Nat
  connected : Bool
  armed : Bool
  lastHeartbeat : Int
  telemetry : TelemetryData
  missionState : MissionState
deriving DecidableEq, Repr

/-- Zero value of `TelemetryData` with `LastUpdate` stamped at creation
time, as in `NewClient`. -/
def initialTelemetry (now : Int) : TelemetryData :=
  { latitude := 0, longitude := 0, altitude := 0
    velocityX := 0, velocityY := 0, velocityZ := 0
    roll := 0, pitch := 0, yaw := 0
    heading := 0, groundSpeed := 0, verticalSpeed := 0
    batteryVoltage := 0, batteryRemaining := 0, batteryCurrent := 0
    gpsAccuracy := 0, satelliteCount := 0
    sensorsHealthy := false, customMode := 0, baseMode := 0
    lastUpdate := now }

/-- Zero value of `MissionState`, as in `NewClient` (`MissionState{}`). -/
def initialMissionState : MissionState :=
  { uploading := false, downloading := false, waypoints := []
    currentIndex := 0, totalCount := 0, uploadComplete := false
    currentWaypoint := 0, totalWaypoints := 0, missionActive := false }

/-- Client state as constructed by `NewClient` (before any message). -/
def initialClientState (now : Int) : ClientState :=
  { systemID := 0, connected := false, armed := false, lastHeartbeat := 0
    telemetry := initialTelemetry now
    missionState := initialMissionState }

/-! ## Message handlers -/

/-- Model of `handleHeartbeat`: record connection, system ID, heartbeat time, armed
bit, and the raw flight-mode encoding. -/
def handleHeartbeat (msg : MessageHeartbeat) (sysID : Nat) (now : Int)
    (s : ClientState) : ClientState :=
  { s with
    connected := true
    systemID := sysID
    lastHeartbeat := now
    armed := (msg.baseMode &&& MAV_MODE_FLAG_SAFETY_ARMED) ≠ 0
    telemetry := { s.telemetry with
      customMode := msg.customMode
      baseMode := msg.baseMode % 256 } }

/-- Model of `handleGlobalPosition`: 1e7-scaled degrees to degrees, mm to m,
cm/s to m/s. -/
def handleGlobalPosition (msg : MessageGlobalPositionInt) (now : Int)
    (s : ClientState) : ClientState :=
  { s with telemetry := { s.telemetry with
      latitude := (msg.lat : Rat) / 10000000
      longitude := (msg.lon : Rat) / 10000000
      altitude := (msg.alt : Rat) / 1000
      velocityX := (msg.vx : Rat) / 100
      velocityY := (msg.vy : Rat) / 100
      velocityZ := (msg.vz : Rat) / 100
      lastUpdate := now } }

/-- Model of `handleAttitude`: store roll/pitch/yaw. -/
def handleAttitude (msg : MessageAttitude) (now : Int)
    (s : ClientState) : ClientState :=
  { s with telemetry := { s.telemetry with
      roll := msg.roll
      pitch := msg.pitch
      yaw := msg.yaw
      lastUpdate := now } }

/-- Model of `handleVfrHud`: store heading, ground speed and climb. -/
def handleVfrHud (msg : MessageVfrHud) (now : Int)
    (s : ClientState) : ClientState :=
  { s with telemetry := { s.telemetry with
      heading := (msg.heading : Rat)
      groundSpeed := msg.groundspeed
      verticalSpeed := msg.climb
      lastUpdate := now } }

/-- Model of `handleSysStatus`: mV to V, cA to A, and the sensor-health mask test. -/
def handleSysStatus (msg : MessageSysStatus) (now : Int)
    (s : ClientState) : ClientState :=
  { s with telemetry := { s.telemetry with
      batteryVoltage := (msg.voltageBattery : Rat) / 1000
      batteryRemaining := msg.batteryRemaining
      batteryCurrent := (msg.currentBattery : Rat) / 100
      sensorsHealthy :=
        (msg.onboardControlSensorsHealth &&& msg.onboardControlSensorsEnabled)
          = msg.onboardControlSensorsEnabled
      lastUpdate := now } }

/-- Model of `handleGpsRaw`: EPH in cm to meters, satellite count. -/
def handleGpsRaw (msg : MessageGpsRawInt) (now : Int)
    (s : ClientState) : ClientState :=
  { s with telemetry := { s.telemetry with
      gpsAccuracy := (msg.eph : Rat) / 100
      satelliteCount := (msg.satellitesVisible : Int)
      lastUpdate := now } }

/-- Model of `handleMissionCurrent`: store the current waypoint index and mark the
mission active (`msg.Seq >= 0` on an unsigned field). -/
def handleMissionCurrent (msg : MessageMissionCurrent)
    (s : ClientState) : ClientState :=
  { s with missionState := { s.missionState with
      currentWaypoint := (msg.seq : Int)
      missionActive := decide ((msg.seq : Int) ≥ 0) } }

/-- Model of `handleMissionItemReached`: log only, no state change. -/
def handleMissionItemReached (_msg : MessageMissionItemReached)
    (s : ClientState) : ClientState := s

/-! ## Liveness (`IsConnected`) -/

/-- Heartbeat staleness threshold: 3 seconds, in milliseconds. -/
def heartbeatStalenessMs : Int := 3000

/-- Model of `IsConnected`: if connected but the last heartbeat is more than 3 s old,
flip `connected` to false as a side effect; return the (possibly updated)
flag.  Time is in milliseconds. -/
def IsConnected (s : ClientState) (now : Int) : ClientState × Bool :=
  if s.connected ∧ now - s.lastHeartbeat > heartbeatStalenessMs then
    ({ s with connected := false }, false)
  else
    (s, s.connected)

/-! ## Mission upload protocol -/

/-- Value delivered on the upload-completion channel. -/
inductive UploadOutcome where
  | success
  | failure (code : Nat)
  | sendErr
deriving DecidableEq, Repr

/-- Model of `mapWaypointActionToMAVLink`: proto waypoint action to MAVLink command;
unknown actions default to `NAV_WAYPOINT`. -/
def mapWaypointActionToMAVLink (action : WaypointAction) : MavCmd :=
  match action with
  | .takeoffAction => .navTakeoff
  | .landAction => .navLand
  | .waypointAction => .navWaypoint
  | .loiterAction => .navLoiterUnlim
  | .holdAction => .navLoiterTime
  | _ => .navWaypoint

/-- Model of `sendMissionItem`: build the `MISSION_ITEM_INT` message for one
waypoint (degrees scaled by 1e7 and truncated to `int32`, altitude passed
through, hold time / acceptance radius / heading in params 1, 2, 4). -/
def sendMissionItem (systemID : Nat) (wp : Waypoint) : OutMsg :=
  .missionItemInt systemID wp.sequence
    (mapWaypointActionToMAVLink wp.action)
    0 1
    wp.holdTimeSec wp.acceptanceRadius 0 wp.heading
    (truncToInt (wp.latitude * 10000000))
    (truncToInt (wp.longitude * 10000000))
    wp.altitude

/-- Model of `handleMissionRequestInt`: while uploading, serve the requested
waypoint; out-of-range sequence numbers are logged and ignored.  `sendOk`
models the transport accepting the write; on a send failure the session is
completed with that error and uploading ends.  Returns the new state, the
messages written to the transport, and the value (if any) delivered on the
completion channel. -/
def handleMissionRequestInt (msg : MessageMissionRequestInt) (sendOk : Bool)
    (s : ClientState) : ClientState × List OutMsg × Option UploadOutcome :=
  if ¬ s.missionState.uploading then
    (s, [], none)
  else if h : msg.seq < s.missionState.waypoints.length then
    let wp := s.missionState.waypoints.get ⟨msg.seq, h⟩
    let item := sendMissionItem s.systemID wp
    if sendOk then
      (s, [item], none)
    else if s.missionState.uploadComplete then
      ({ s with missionState := { s.missionState with
          uploading := false, uploadComplete := false } },
        [item], some .sendErr)
    else
      ({ s with missionState := { s.missionState with uploading := false } },
        [item], none)
  else
    (s, [], none)

/-- Model of `handleMissionAck`: while uploading, end the session and fulfil the
completion channel with success iff the code is `MAV_MISSION_ACCEPTED`,
else with a failure carrying the raw code; otherwise log and ignore. -/
def handleMissionAck (msg : MessageMissionAck)
    (s : ClientState) : ClientState × Option UploadOutcome :=
  if s.missionState.uploading then
    if s.missionState.uploadComplete then
      ({ s with missionState := { s.missionState with
          uploading := false, uploadComplete := false } },
        some (if msg.ackType = MAV_MISSION_ACCEPTED then .success
              else .failure msg.ackType))
    else
      ({ s with missionState := { s.missionState with uploading := false } },
        none)
  else
    (s, none)

/-- The synchronous prefix of `UploadMission`, up to the blocking wait on
the completion channel: reject if an upload is already in progress;
otherwise install the session, send `MISSION_COUNT`, and (on a send
failure, modelled by `sendOk = false`) reset the uploading flag and fail. -/
def uploadMissionStart (wps : List Waypoint) (sendOk : Bool)
    (s : ClientState) : ClientState × Option Err × List OutMsg :=
  if s.missionState.uploading then
    (s, some .uploadInProgress, [])
  else
    let s1 := { s with missionState := { s.missionState with
        uploading := true
        waypoints := wps
        totalCount := wps.length
        currentIndex := 0
        uploadComplete := true } }
    let countMsg := OutMsg.missionCount s.systemID wps.length
    if sendOk then
      (s1, none, [countMsg])
    else
      ({ s1 with missionState := { s1.missionState with uploading := false } },
        some .sendFailed, [countMsg])

/-- The timeout arm of `UploadMission`'s blocking wait: after 30 s without
a completion value, forcibly reset the uploading flag. -/
def uploadMissionTimeout (s : ClientState) : ClientState :=
  { s with missionState := { s.missionState with uploading := false } }

/-- Model of `GetMissionProgress`: current waypoint, total waypoints, active flag. -/
def GetMissionProgress (s : ClientState) : Int × Int × Bool :=
  (s.missionState.currentWaypoint, s.missionState.totalWaypoints,
    s.missionState.missionActive)

/-! ## Commands (fire-and-forget, guarded by `IsConnected`) -/

/-- Shared shape of every command: check `IsConnected` (with its side
effect); if false return `NotConnected` and send nothing; otherwise write
the one message, whose transport acceptance is `sendOk`. -/
def runCommand (s : ClientState) (now : Int) (sendOk : Bool)
    (msg : Nat → OutMsg) : ClientState × Except Err Unit × List OutMsg :=
  let res := IsConnected s now
  if res.2 then
    (res.1, if sendOk then .ok () else .error .sendFailed, [msg s.systemID])
  else
    (res.1, .error .notConnected, [])

/-- Model of `Arm`: `MAV_CMD_COMPONENT_ARM_DISARM` with param1 = 1. -/
def Arm (s : ClientState) (now : Int) (sendOk : Bool) :
    ClientState × Except Err Unit × List OutMsg :=
  runCommand s now sendOk (fun sysID => .commandLong sysID .componentArmDisarm 1 0 0)

/-- Model of `Disarm`: `MAV_CMD_COMPONENT_ARM_DISARM` with param1 = 0. -/
def Disarm (s : ClientState) (now : Int) (sendOk : Bool) :
    ClientState × Except Err Unit × List OutMsg :=
  runCommand s now sendOk (fun sysID => .commandLong sysID .componentArmDisarm 0 0 0)

/-- Model of `SetMode`: `MAV_CMD_DO_SET_MODE` with the custom-mode-enabled flag and
the PX4 mode value. -/
def SetMode (px4Mode : Nat) (s : ClientState) (now : Int) (sendOk : Bool) :
    ClientState × Except Err Unit × List OutMsg :=
  runCommand s now sendOk (fun sysID =>
    .commandLong sysID .doSetMode (MAV_MODE_FLAG_CUSTOM_MODE_ENABLED : Rat)
      (px4Mode : Rat) 0)

/-- Model of `Takeoff`: `MAV_CMD_NAV_TAKEOFF` with the target altitude in param7. -/
def Takeoff (altitude : Rat) (s : ClientState) (now : Int) (sendOk : Bool) :
    ClientState × Except Err Unit × List OutMsg :=
  runCommand s now sendOk (fun sysID => .commandLong sysID .navTakeoff 0 0 altitude)

/-- Model of `Land`: `MAV_CMD_NAV_LAND`. -/
def Land (s : ClientState) (now : Int) (sendOk : Bool) :
    ClientState × Except Err Unit × List OutMsg :=
  runCommand s now sendOk (fun sysID => .commandLong sysID .navLand 0 0 0)

/-- Model of `ReturnToLaunch`: `MAV_CMD_NAV_RETURN_TO_LAUNCH`. -/
def ReturnToLaunch (s : ClientState) (now : Int) (sendOk : Bool) :
    ClientState × Except Err Unit × List OutMsg :=
  runCommand s now sendOk (fun sysID => .commandLong sysID .navReturnToLaunch 0 0 0)

/-- Model of `GoToPosition`: one `SET_POSITION_TARGET_GLOBAL_INT` setpoint with the
position-only type mask and 1e7-scaled integer degrees. -/
def GoToPosition (latitude longitude altitude : Rat)
    (s : ClientState) (now : Int) (sendOk : Bool) :
    ClientState × Except Err Unit × List OutMsg :=
  runCommand s now sendOk (fun sysID =>
    .setPositionTargetGlobalInt sysID goToPositionTypeMask
      (truncToInt (latitude * 10000000)) (truncToInt (longitude * 10000000))
      altitude)

/-- Model of `ClearMission`: one `MISSION_CLEAR_ALL` message. -/
def ClearMission (s : ClientState) (now : Int) (sendOk : Bool) :
    ClientState × Except Err Unit × List OutMsg :=
  runCommand s now sendOk (fun sysID => .missionClearAll sysID)

/-- Model of `StartMission`: one `MISSION_SET_CURRENT` message. -/
def StartMission (waypointIndex : Nat) (s : ClientState) (now : Int)
    (sendOk : Bool) : ClientState × Except Err Unit × List OutMsg :=
  runCommand s now sendOk (fun sysID => .missionSetCurrent sysID waypointIndex)

/-- Model of `Close`: marks the client disconnected. -/
def CloseClient (s : ClientState) : ClientState :=
  { s with connected := false }

/-! ## Reachable client states

One step per state-touching operation of the client: the inbound message
handlers, the liveness read, the upload orchestration, and the commands. -/

inductive Step where
  | heartbeat (m : MessageHeartbeat) (sysID : Nat) (now : Int)
  | globalPosition (m : MessageGlobalPositionInt) (now : Int)
  | attitude (m : MessageAttitude) (now : Int)
  | vfrHud (m : MessageVfrHud) (now : Int)
  | sysStatus (m : MessageSysStatus) (now : Int)
  | gpsRaw (m : MessageGpsRawInt) (now : Int)
  | missionRequestInt (m : MessageMissionRequestInt) (sendOk : Bool)
  | missionAck (m : MessageMissionAck)
  | missionCurrent (m : MessageMissionCurrent)
  | missionItemReached (m : MessageMissionItemReached)
  | connectedRead (now : Int)
  | uploadStart (wps : List Waypoint) (sendOk : Bool)
  | uploadTimeout
  | armCmd (now : Int) (sendOk : Bool)
  | disarmCmd (now : Int) (sendOk : Bool)
  | setModeCmd (px4Mode : Nat) (now : Int) (sendOk : Bool)
  | takeoffCmd (altitude : Rat) (now : Int) (sendOk : Bool)
  | landCmd (now : Int) (sendOk : Bool)
  | rtlCmd (now : Int) (sendOk : Bool)
  | goToCmd (latitude longitude altitude : Rat) (now : Int) (sendOk : Bool)
  | clearMissionCmd (now : Int) (sendOk : Bool)
  | startMissionCmd (waypointIndex : Nat) (now : Int) (sendOk : Bool)
  | closeStep

/-- The state component of one step of the client. -/
def stepFn (e : Step) (s : ClientState) : ClientState :=
  match e with
  | .heartbeat m sysID now => handleHeartbeat m sysID now s
  | .globalPosition m now => handleGlobalPosition m now s
  | .attitude m now => handleAttitude m now s
  | .vfrHud m now => handleVfrHud m now s
  | .sysStatus m now => handleSysStatus m now s
  | .gpsRaw m now => handleGpsRaw m now s
  | .missionRequestInt m sendOk => (handleMissionRequestInt m sendOk s).1
  | .missionAck m => (handleMissionAck m s).1
  | .missionCurrent m => handleMissionCurrent m s
  | .missionItemReached m => handleMissionItemReached m s
  | .connectedRead now => (IsConnected s now).1
  | .uploadStart wps sendOk => (uploadMissionStart wps sendOk s).1
  | .uploadTimeout => uploadMissionTimeout s
  | .armCmd now sendOk => (Arm s now sendOk).1
  | .disarmCmd now sendOk => (Disarm s now sendOk).1
  | .setModeCmd px4Mode now sendOk => (SetMode px4Mode s now sendOk).1
  | .takeoffCmd altitude now sendOk => (Takeoff altitude s now sendOk).1
  | .landCmd now sendOk => (Land s now sendOk).1
  | .rtlCmd now sendOk => (ReturnToLaunch s now sendOk).1
  | .goToCmd la lo al now sendOk => (GoToPosition la lo al s now sendOk).1
  | .clearMissionCmd now sendOk => (ClearMission s now sendOk).1
  | .startMissionCmd i now sendOk => (StartMission i s now sendOk).1
  | .closeStep => CloseClient s

/-- States reachable from a freshly constructed client. -/
inductive Reachable : ClientState → Prop where
  | init (now : Int) : Reachable (initialClientState now)
  | step (e : Step) {s : ClientState} (h : Reachable s) : Reachable (stepFn e s)

/-! ## Theorems -/

/-- C1: for every supported generic flight mode, decoding the encoded raw
value yields the mode back; in particular `RETURN_HOME` encodes to
`PX4_MAIN_MODE_AUTO ||| (PX4_AUTO_MODE_RTL <<< 16)` and that value decodes
to `RETURN_HOME`. -/
theorem mode_codec_roundtrip :
    (∀ (m : FlightMode) (v : Nat),
      mapFlightModeToPX4 m = Except.ok v → mapPX4ModeToFlightMode v = m) ∧
    mapFlightModeToPX4 FlightMode.returnHome =
      Except.ok (PX4_MAIN_MODE_AUTO ||| (PX4_AUTO_MODE_RTL <<< 16)) ∧
    mapPX4ModeToFlightMode (PX4_MAIN_MODE_AUTO ||| (PX4_AUTO_MODE_RTL <<< 16)) =
      FlightMode.returnHome := by
  refine ⟨?_, by rfl, by decide⟩
  intro m v h
  cases m <;> simp [mapFlightModeToPX4] at h <;> subst h <;> decide

/-- Witness for C1: the round-trip at the concrete mode `RETURN_HOME`. -/
theorem mode_codec_roundtrip_witness :
    mapPX4ModeToFlightMode 327684 = FlightMode.returnHome :=
  mode_codec_roundtrip.1 FlightMode.returnHome 327684 (by rfl)

/-- C2 counterexample: the raw value with AUTO main mode and the unknown
sub-mode 7 decodes to AUTO, not MANUAL, refuting the claim that every
unmatched raw value decodes to MANUAL. -/
theorem mode_decode_unknown_sub_counterexample :
    mapPX4ModeToFlightMode (PX4_MAIN_MODE_AUTO ||| (7 <<< 16)) ≠
      FlightMode.manual ∧
    mapPX4ModeToFlightMode (PX4_MAIN_MODE_AUTO ||| (7 <<< 16)) =
      FlightMode.auto := by
  decide

/-- C2 (amended): a raw value whose main-mode field matches no supported
main mode decodes to MANUAL; a raw value with the AUTO main mode whose
sub-mode field matches no supported sub-mode decodes to AUTO. -/
theorem mode_decode_defaults :
    (∀ raw : Nat,
      raw &&& 0xFF ≠ PX4_MAIN_MODE_MANUAL →
      raw &&& 0xFF ≠ PX4_MAIN_MODE_STABILIZED →
      raw &&& 0xFF ≠ PX4_MAIN_MODE_ALTCTL →
      raw &&& 0xFF ≠ PX4_MAIN_MODE_POSCTL →
      raw &&& 0xFF ≠ PX4_MAIN_MODE_OFFBOARD →
      raw &&& 0xFF ≠ PX4_MAIN_MODE_AUTO →
      mapPX4ModeToFlightMode raw = FlightMode.manual) ∧
    (∀ raw : Nat,
      raw &&& 0xFF = PX4_MAIN_MODE_AUTO →
      (raw >>> 16) &&& 0xFF ≠ PX4_AUTO_MODE_MISSION →
      (raw >>> 16) &&& 0xFF ≠ PX4_AUTO_MODE_RTL →
      (raw >>> 16) &&& 0xFF ≠ PX4_AUTO_MODE_LAND →
      (raw >>> 16) &&& 0xFF ≠ PX4_AUTO_MODE_TAKEOFF →
      (raw >>> 16) &&& 0xFF ≠ PX4_AUTO_MODE_LOITER →
      mapPX4ModeToFlightMode raw = FlightMode.auto) := by
  constructor
  · intro raw h1 h2 h3 h4 h5 h6
    simp [mapPX4ModeToFlightMode, h1, h2, h3, h4, h5, h6]
  · intro raw h0 h1 h2 h3 h4 h5
    simp [mapPX4ModeToFlightMode, PX4_MAIN_MODE_MANUAL, PX4_MAIN_MODE_AUTO,
      PX4_MAIN_MODE_STABILIZED, PX4_MAIN_MODE_ALTCTL, PX4_MAIN_MODE_POSCTL,
      PX4_MAIN_MODE_OFFBOARD] at h0 ⊢
    simp [h0, h1, h2, h3, h4, h5]

/-- Witness for C2 (amended): main mode 5 (ACRO) decodes to MANUAL, and
AUTO with sub-mode 7 decodes to AUTO. -/
theorem mode_decode_defaults_witness :
    mapPX4ModeToFlightMode 5 = FlightMode.manual ∧
    mapPX4ModeToFlightMode 458756 = FlightMode.auto :=
  ⟨mode_decode_defaults.1 5 (by decide) (by decide) (by decide) (by decide)
      (by decide) (by decide),
    mode_decode_defaults.2 458756 (by decide) (by decide) (by decide)
      (by decide) (by decide) (by decide)⟩

/-- The Boolean value returned by `IsConnected`. -/
lemma IsConnected_snd (s : ClientState) (now : Int) :
    (IsConnected s now).2 =
      (s.connected && decide (now - s.lastHeartbeat ≤ heartbeatStalenessMs)) := by
  unfold IsConnected
  split
  · rename_i h
    obtain ⟨hc, hs⟩ := h
    simp [hc, not_le.mpr hs]
  · rename_i h
    cases hc : s.connected
    · simp
    · rw [hc] at h
      simp only [true_and, not_lt] at h
      simp [h]

/-- The `IsConnected` read leaves the stored flag equal to the value it returns. -/
lemma IsConnected_fst_connected (s : ClientState) (now : Int) :
    (IsConnected s now).1.connected = (IsConnected s now).2 := by
  unfold IsConnected
  split
  · rfl
  · rfl

/-- The `IsConnected` read changes no field other than `connected`. -/
lemma IsConnected_fst_frame (s : ClientState) (now : Int) :
    (IsConnected s now).1.systemID = s.systemID ∧
    (IsConnected s now).1.armed = s.armed ∧
    (IsConnected s now).1.lastHeartbeat = s.lastHeartbeat ∧
    (IsConnected s now).1.telemetry = s.telemetry ∧
    (IsConnected s now).1.missionState = s.missionState := by
  unfold IsConnected
  split <;> exact ⟨rfl, rfl, rfl, rfl, rfl⟩

/-- C4: `IsConnected` returns true iff the flag is set and at most
3000 ms (the staleness threshold) have elapsed since the last heartbeat;
the stored flag is left equal to the returned value, so once a read
returns false every later read without an intervening heartbeat also
returns false; and for a heartbeat at t = 0, a read at t = 2900 ms is
true while a read at t = 3100 ms is false. -/
theorem isConnected_staleness :
    (∀ (s : ClientState) (now : Int),
      (IsConnected s now).2 =
        (s.connected && decide (now - s.lastHeartbeat ≤ heartbeatStalenessMs))) ∧
    (∀ (s : ClientState) (now : Int),
      (IsConnected s now).1.connected = (IsConnected s now).2) ∧
    (∀ (s : ClientState) (now now₂ : Int),
      (IsConnected s now).2 = false →
      (IsConnected (IsConnected s now).1 now₂).2 = false) ∧
    (∀ (m : MessageHeartbeat) (sysID : Nat) (s : ClientState),
      (IsConnected (handleHeartbeat m sysID 0 s) 2900).2 = true ∧
      (IsConnected (handleHeartbeat m sysID 0 s) 3100).2 = false) := by
  refine ⟨IsConnected_snd, IsConnected_fst_connected, ?_, ?_⟩
  · intro s now now₂ h
    rw [IsConnected_snd, IsConnected_fst_connected, h]
    simp
  · intro m sysID s
    constructor
    · rw [IsConnected_snd]
      simp [handleHeartbeat, heartbeatStalenessMs]
    · rw [IsConnected_snd]
      simp [handleHeartbeat, heartbeatStalenessMs]

/-- Witness for C4: on a fresh client (no heartbeat ever), a read returns
false and so does a subsequent read. -/
theorem isConnected_staleness_witness :
    (IsConnected (IsConnected (initialClientState 0) 0).1 50).2 = false :=
  isConnected_staleness.2.2.1 (initialClientState 0) 0 50 rfl

/-- C5: `handleSysStatus` sets the sensors-healthy flag to true iff the
healthy mask intersected with the enabled mask equals the enabled mask;
moreover the flag depends only on the enabled mask and the healthy bits of
enabled sensors, so a disabled sensor's healthy bit never affects it. -/
theorem sensors_healthy_mask :
    (∀ (m : MessageSysStatus) (now : Int) (s : ClientState),
      (handleSysStatus m now s).telemetry.sensorsHealthy = true ↔
        m.onboardControlSensorsHealth &&& m.onboardControlSensorsEnabled =
          m.onboardControlSensorsEnabled) ∧
    (∀ (m m' : MessageSysStatus) (now : Int) (s : ClientState),
      m.onboardControlSensorsEnabled = m'.onboardControlSensorsEnabled →
      m.onboardControlSensorsHealth &&& m.onboardControlSensorsEnabled =
        m'.onboardControlSensorsHealth &&& m'.onboardControlSensorsEnabled →
      (handleSysStatus m now s).telemetry.sensorsHealthy =
        (handleSysStatus m' now s).telemetry.sensorsHealthy) := by
  constructor
  · intro m now s
    simp [handleSysStatus]
  · intro m m' now s he hh
    rw [he] at hh
    simp [handleSysStatus, he, hh]

/-- Witness for C5: two status messages agreeing on the enabled mask and on
the enabled sensors' healthy bits (healthy masks 3 and 1, enabled mask 1)
produce the same flag. -/
theorem sensors_healthy_mask_witness :
    (handleSysStatus ⟨1, 3, 0, 0, 0⟩ 0 (initialClientState 0)).telemetry.sensorsHealthy =
      (handleSysStatus ⟨1, 1, 0, 0, 0⟩ 0 (initialClientState 0)).telemetry.sensorsHealthy :=
  sensors_healthy_mask.2 ⟨1, 3, 0, 0, 0⟩ ⟨1, 1, 0, 0, 0⟩ 0 (initialClientState 0)
    (by decide) (by decide)

/-- C3: a second `UploadMission` call while an upload is in progress
returns the upload-already-in-progress error, leaves the whole client
state (in particular the first session's waypoint list, total count,
uploading flag and completion signal) unchanged, and sends nothing. -/
theorem upload_in_progress_rejected :
    ∀ (s : ClientState) (wps : List Waypoint) (sendOk : Bool),
      s.missionState.uploading = true →
      uploadMissionStart wps sendOk s = (s, some Err.uploadInProgress, []) := by
  intro s wps sendOk h
  simp [uploadMissionStart, h]

/-- Witness for C3: a client with an active upload session rejects a new
upload of an empty list. -/
theorem upload_in_progress_rejected_witness :
    uploadMissionStart [] true
        { initialClientState 0 with
          missionState := { initialMissionState with uploading := true } } =
      ({ initialClientState 0 with
          missionState := { initialMissionState with uploading := true } },
        some Err.uploadInProgress, []) :=
  upload_in_progress_rejected _ [] true rfl

/-- C9: when the liveness check fails, each of `Arm`, `Disarm`, `SetMode`,
`Takeoff`, `Land`, `ReturnToLaunch` and `GoToPosition` returns the
not-connected error and sends nothing. -/
theorem commands_fail_fast_when_disconnected :
    ∀ (s : ClientState) (now : Int) (sendOk : Bool) (px4Mode : Nat)
      (altitude la lo al : Rat),
      (IsConnected s now).2 = false →
      Arm s now sendOk = ((IsConnected s now).1, Except.error Err.notConnected, []) ∧
      Disarm s now sendOk = ((IsConnected s now).1, Except.error Err.notConnected, []) ∧
      SetMode px4Mode s now sendOk =
        ((IsConnected s now).1, Except.error Err.notConnected, []) ∧
      Takeoff altitude s now sendOk =
        ((IsConnected s now).1, Except.error Err.notConnected, []) ∧
      Land s now sendOk = ((IsConnected s now).1, Except.error Err.notConnected, []) ∧
      ReturnToLaunch s now sendOk =
        ((IsConnected s now).1, Except.error Err.notConnected, []) ∧
      GoToPosition la lo al s now sendOk =
        ((IsConnected s now).1, Except.error Err.notConnected, []) := by
  intro s now sendOk px4Mode altitude la lo al h
  simp [Arm, Disarm, SetMode, Takeoff, Land, ReturnToLaunch, GoToPosition,
    runCommand, h]

/-- Witness for C9: on a fresh client that never received a heartbeat,
`Arm` fails with the not-connected error and sends nothing. -/
theorem commands_fail_fast_when_disconnected_witness :
    Arm (initialClientState 0) 0 true =
      ((initialClientState 0), Except.error Err.notConnected, []) :=
  (commands_fail_fast_when_disconnected (initialClientState 0) 0 true 0 0 0 0 0
    rfl).1

/-- C7: during an upload, a mission request with an out-of-range sequence
number is ignored (no message, no state change); otherwise exactly one
mission-item message is sent for waypoint N, carrying the mapped command
code, 1e7-scaled latitude/longitude, and hold time / acceptance radius /
heading in parameters 1, 2 and 4. -/
theorem mission_request_serves_waypoint :
    (∀ (m : MessageMissionRequestInt) (sendOk : Bool) (s : ClientState),
      s.missionState.uploading = true →
      s.missionState.waypoints.length ≤ m.seq →
      handleMissionRequestInt m sendOk s = (s, [], none)) ∧
    (∀ (m : MessageMissionRequestInt) (s : ClientState)
      (h : m.seq < s.missionState.waypoints.length),
      s.missionState.uploading = true →
      handleMissionRequestInt m true s =
        (s, [sendMissionItem s.systemID (s.missionState.waypoints.get ⟨m.seq, h⟩)],
          none)) ∧
    (∀ (sysID : Nat) (wp : Waypoint),
      sendMissionItem sysID wp =
        OutMsg.missionItemInt sysID wp.sequence
          (mapWaypointActionToMAVLink wp.action) 0 1
          wp.holdTimeSec wp.acceptanceRadius 0 wp.heading
          (truncToInt (wp.latitude * 10000000))
          (truncToInt (wp.longitude * 10000000))
          wp.altitude) ∧
    (mapWaypointActionToMAVLink .takeoffAction = .navTakeoff ∧
      mapWaypointActionToMAVLink .landAction = .navLand ∧
      mapWaypointActionToMAVLink .waypointAction = .navWaypoint ∧
      mapWaypointActionToMAVLink .loiterAction = .navLoiterUnlim ∧
      mapWaypointActionToMAVLink .holdAction = .navLoiterTime) := by
  refine ⟨?_, ?_, fun sysID wp => rfl, by decide⟩
  · intro m sendOk s hup hlen
    simp [handleMissionRequestInt, hup, Nat.not_lt.mpr hlen]
  · intro m s h hup
    simp [handleMissionRequestInt, hup, h]

/-- Witness for C7: with one waypoint in the session, the request for
sequence 5 is ignored and the request for sequence 0 sends that waypoint's
mission item. -/
theorem mission_request_serves_waypoint_witness :
    handleMissionRequestInt ⟨5⟩ true
        { initialClientState 0 with
          missionState := { initialMissionState with
            uploading := true
            waypoints := [⟨0, .takeoffAction, 1, 2, 30, 0, 5, 90⟩] } } =
      ({ initialClientState 0 with
          missionState := { initialMissionState with
            uploading := true
            waypoints := [⟨0, .takeoffAction, 1, 2, 30, 0, 5, 90⟩] } },
        [], none) ∧
    handleMissionRequestInt ⟨0⟩ true
        { initialClientState 0 with
          missionState := { initialMissionState with
            uploading := true
            waypoints := [⟨0, .takeoffAction, 1, 2, 30, 0, 5, 90⟩] } } =
      ({ initialClientState 0 with
          missionState := { initialMissionState with
            uploading := true
            waypoints := [⟨0, .takeoffAction, 1, 2, 30, 0, 5, 90⟩] } },
        [sendMissionItem 0 ⟨0, .takeoffAction, 1, 2, 30, 0, 5, 90⟩], none) :=
  ⟨mission_request_serves_waypoint.1 ⟨5⟩ true _ rfl (by decide),
    mission_request_serves_waypoint.2.1 ⟨0⟩ _ (by decide) rfl⟩

/-- C8: a mission acknowledgment during an active upload session clears
the uploading flag and fulfils the completion signal exactly once —
success for the accepted code, failure carrying the raw code otherwise —
while an acknowledgment with no upload active (in particular any second
acknowledgment after completion) changes no state and fulfils nothing. -/
theorem mission_ack_completes_upload :
    (∀ (m : MessageMissionAck) (s : ClientState),
      s.missionState.uploading = true →
      s.missionState.uploadComplete = true →
      handleMissionAck m s =
        ({ s with missionState := { s.missionState with
            uploading := false, uploadComplete := false } },
          some (if m.ackType = MAV_MISSION_ACCEPTED then .success
                else .failure m.ackType))) ∧
    (∀ (m : MessageMissionAck) (s : ClientState),
      s.missionState.uploading = false →
      handleMissionAck m s = (s, none)) ∧
    (∀ (m m' : MessageMissionAck) (s : ClientState),
      handleMissionAck m' (handleMissionAck m s).1 =
        ((handleMissionAck m s).1, none) ∨
      s.missionState.uploading = false) := by
  refine ⟨?_, ?_, ?_⟩
  · intro m s hup hch
    simp [handleMissionAck, hup, hch]
  · intro m s hup
    simp [handleMissionAck, hup]
  · intro m m' s
    by_cases hup : s.missionState.uploading = true
    · left
      by_cases hch : s.missionState.uploadComplete = true
      · rw [show (handleMissionAck m s).1 =
            { s with missionState := { s.missionState with
                uploading := false, uploadComplete := false } } from by
          simp [handleMissionAck, hup, hch]]
        simp [handleMissionAck]
      · rw [show (handleMissionAck m s).1 =
            { s with missionState := { s.missionState with
                uploading := false } } from by
          simp [handleMissionAck, hup, hch]]
        simp [handleMissionAck]
    · right
      simpa using hup

/-- Witness for C8: an accepted acknowledgment during an active session
ends it with success. -/
theorem mission_ack_completes_upload_witness :
    handleMissionAck ⟨0⟩
        { initialClientState 0 with
          missionState := { initialMissionState with
            uploading := true, uploadComplete := true } } =
      ({ initialClientState 0 with missionState := initialMissionState },
        some UploadOutcome.success) := by
  have h := mission_ack_completes_upload.1 ⟨0⟩
    { initialClientState 0 with
      missionState := { initialMissionState with
        uploading := true, uploadComplete := true } } rfl rfl
  simpa using h

/-- The fields of `ClientState` that no telemetry handler touches. -/
def connectionAndMissionFrame (s s' : ClientState) : Prop :=
  s'.connected = s.connected ∧ s'.armed = s.armed ∧
  s'.systemID = s.systemID ∧ s'.lastHeartbeat = s.lastHeartbeat ∧
  s'.missionState = s.missionState

/-- C6: each of the five telemetry handlers writes exactly the snapshot
fields it owns (with the unit conversions: 1e7-scaled degrees to degrees,
millimeters to meters, centi-units to base units, millivolts to volts)
plus `lastUpdate`, and leaves every other snapshot field and all
connection/mission state unchanged. -/
theorem telemetry_handlers_frame :
    (∀ (m : MessageGlobalPositionInt) (now : Int) (s : ClientState),
      (handleGlobalPosition m now s).telemetry.latitude = (m.lat : Rat) / 10000000 ∧
      (handleGlobalPosition m now s).telemetry.longitude = (m.lon : Rat) / 10000000 ∧
      (handleGlobalPosition m now s).telemetry.altitude = (m.alt : Rat) / 1000 ∧
      (handleGlobalPosition m now s).telemetry.velocityX = (m.vx : Rat) / 100 ∧
      (handleGlobalPosition m now s).telemetry.velocityY = (m.vy : Rat) / 100 ∧
      (handleGlobalPosition m now s).telemetry.velocityZ = (m.vz : Rat) / 100 ∧
      (handleGlobalPosition m now s).telemetry.lastUpdate = now ∧
      (handleGlobalPosition m now s).telemetry.roll = s.telemetry.roll ∧
      (handleGlobalPosition m now s).telemetry.pitch = s.telemetry.pitch ∧
      (handleGlobalPosition m now s).telemetry.yaw = s.telemetry.yaw ∧
      (handleGlobalPosition m now s).telemetry.heading = s.telemetry.heading ∧
      (handleGlobalPosition m now s).telemetry.groundSpeed = s.telemetry.groundSpeed ∧
      (handleGlobalPosition m now s).telemetry.verticalSpeed = s.telemetry.verticalSpeed ∧
      (handleGlobalPosition m now s).telemetry.batteryVoltage = s.telemetry.batteryVoltage ∧
      (handleGlobalPosition m now s).telemetry.batteryRemaining = s.telemetry.batteryRemaining ∧
      (handleGlobalPosition m now s).telemetry.batteryCurrent = s.telemetry.batteryCurrent ∧
      (handleGlobalPosition m now s).telemetry.gpsAccuracy = s.telemetry.gpsAccuracy ∧
      (handleGlobalPosition m now s).telemetry.satelliteCount = s.telemetry.satelliteCount ∧
      (handleGlobalPosition m now s).telemetry.sensorsHealthy = s.telemetry.sensorsHealthy ∧
      (handleGlobalPosition m now s).telemetry.customMode = s.telemetry.customMode ∧
      (handleGlobalPosition m now s).telemetry.baseMode = s.telemetry.baseMode ∧
      connectionAndMissionFrame s (handleGlobalPosition m now s)) ∧
    (∀ (m : MessageAttitude) (now : Int) (s : ClientState),
      (handleAttitude m now s).telemetry.roll = m.roll ∧
      (handleAttitude m now s).telemetry.pitch = m.pitch ∧
      (handleAttitude m now s).telemetry.yaw = m.yaw ∧
      (handleAttitude m now s).telemetry.lastUpdate = now ∧
      (handleAttitude m now s).telemetry.latitude = s.telemetry.latitude ∧
      (handleAttitude m now s).telemetry.longitude = s.telemetry.longitude ∧
      (handleAttitude m now s).telemetry.altitude = s.telemetry.altitude ∧
      (handleAttitude m now s).telemetry.velocityX = s.telemetry.velocityX ∧
      (handleAttitude m now s).telemetry.velocityY = s.telemetry.velocityY ∧
      (handleAttitude m now s).telemetry.velocityZ = s.telemetry.velocityZ ∧
      (handleAttitude m now s).telemetry.heading = s.telemetry.heading ∧
      (handleAttitude m now s).telemetry.groundSpeed = s.telemetry.groundSpeed ∧
      (handleAttitude m now s).telemetry.verticalSpeed = s.telemetry.verticalSpeed ∧
      (handleAttitude m now s).telemetry.batteryVoltage = s.telemetry.batteryVoltage ∧
      (handleAttitude m now s).telemetry.batteryRemaining = s.telemetry.batteryRemaining ∧
      (handleAttitude m now s).telemetry.batteryCurrent = s.telemetry.batteryCurrent ∧
      (handleAttitude m now s).telemetry.gpsAccuracy = s.telemetry.gpsAccuracy ∧
      (handleAttitude m now s).telemetry.satelliteCount = s.telemetry.satelliteCount ∧
      (handleAttitude m now s).telemetry.sensorsHealthy = s.telemetry.sensorsHealthy ∧
      (handleAttitude m now s).telemetry.customMode = s.telemetry.customMode ∧
      (handleAttitude m now s).telemetry.baseMode = s.telemetry.baseMode ∧
      connectionAndMissionFrame s (handleAttitude m now s)) ∧
    (∀ (m : MessageVfrHud) (now : Int) (s : ClientState),
      (handleVfrHud m now s).telemetry.heading = (m.heading : Rat) ∧
      (handleVfrHud m now s).telemetry.groundSpeed = m.groundspeed ∧
      (handleVfrHud m now s).telemetry.verticalSpeed = m.climb ∧
      (handleVfrHud m now s).telemetry.lastUpdate = now ∧
      (handleVfrHud m now s).telemetry.latitude = s.telemetry.latitude ∧
      (handleVfrHud m now s).telemetry.longitude = s.telemetry.longitude ∧
      (handleVfrHud m now s).telemetry.altitude = s.telemetry.altitude ∧
      (handleVfrHud m now s).telemetry.velocityX = s.telemetry.velocityX ∧
      (handleVfrHud m now s).telemetry.velocityY = s.telemetry.velocityY ∧
      (handleVfrHud m now s).telemetry.velocityZ = s.telemetry.velocityZ ∧
      (handleVfrHud m now s).telemetry.roll = s.telemetry.roll ∧
      (handleVfrHud m now s).telemetry.pitch = s.telemetry.pitch ∧
      (handleVfrHud m now s).telemetry.yaw = s.telemetry.yaw ∧
      (handleVfrHud m now s).telemetry.batteryVoltage = s.telemetry.batteryVoltage ∧
      (handleVfrHud m now s).telemetry.batteryRemaining = s.telemetry.batteryRemaining ∧
      (handleVfrHud m now s).telemetry.batteryCurrent = s.telemetry.batteryCurrent ∧
      (handleVfrHud m now s).telemetry.gpsAccuracy = s.telemetry.gpsAccuracy ∧
      (handleVfrHud m now s).telemetry.satelliteCount = s.telemetry.satelliteCount ∧
      (handleVfrHud m now s).telemetry.sensorsHealthy = s.telemetry.sensorsHealthy ∧
      (handleVfrHud m now s).telemetry.customMode = s.telemetry.customMode ∧
      (handleVfrHud m now s).telemetry.baseMode = s.telemetry.baseMode ∧
      connectionAndMissionFrame s (handleVfrHud m now s)) ∧
    (∀ (m : MessageSysStatus) (now : Int) (s : ClientState),
      (handleSysStatus m now s).telemetry.batteryVoltage = (m.voltageBattery : Rat) / 1000 ∧
      (handleSysStatus m now s).telemetry.batteryRemaining = m.batteryRemaining ∧
      (handleSysStatus m now s).telemetry.batteryCurrent = (m.currentBattery : Rat) / 100 ∧
      (handleSysStatus m now s).telemetry.sensorsHealthy =
        decide ((m.onboardControlSensorsHealth &&& m.onboardControlSensorsEnabled)
          = m.onboardControlSensorsEnabled) ∧
      (handleSysStatus m now s).telemetry.lastUpdate = now ∧
      (handleSysStatus m now s).telemetry.latitude = s.telemetry.latitude ∧
      (handleSysStatus m now s).telemetry.longitude = s.telemetry.longitude ∧
      (handleSysStatus m now s).telemetry.altitude = s.telemetry.altitude ∧
      (handleSysStatus m now s).telemetry.velocityX = s.telemetry.velocityX ∧
      (handleSysStatus m now s).telemetry.velocityY = s.telemetry.velocityY ∧
      (handleSysStatus m now s).telemetry.velocityZ = s.telemetry.velocityZ ∧
      (handleSysStatus m now s).telemetry.roll = s.telemetry.roll ∧
      (handleSysStatus m now s).telemetry.pitch = s.telemetry.pitch ∧
      (handleSysStatus m now s).telemetry.yaw = s.telemetry.yaw ∧
      (handleSysStatus m now s).telemetry.heading = s.telemetry.heading ∧
      (handleSysStatus m now s).telemetry.groundSpeed = s.telemetry.groundSpeed ∧
      (handleSysStatus m now s).telemetry.verticalSpeed = s.telemetry.verticalSpeed ∧
      (handleSysStatus m now s).telemetry.gpsAccuracy = s.telemetry.gpsAccuracy ∧
      (handleSysStatus m now s).telemetry.satelliteCount = s.telemetry.satelliteCount ∧
      (handleSysStatus m now s).telemetry.customMode = s.telemetry.customMode ∧
      (handleSysStatus m now s).telemetry.baseMode = s.telemetry.baseMode ∧
      connectionAndMissionFrame s (handleSysStatus m now s)) ∧
    (∀ (m : MessageGpsRawInt) (now : Int) (s : ClientState),
      (handleGpsRaw m now s).telemetry.gpsAccuracy = (m.eph : Rat) / 100 ∧
      (handleGpsRaw m now s).telemetry.satelliteCount = (m.satellitesVisible : Int) ∧
      (handleGpsRaw m now s).telemetry.lastUpdate = now ∧
      (handleGpsRaw m now s).telemetry.latitude = s.telemetry.latitude ∧
      (handleGpsRaw m now s).telemetry.longitude = s.telemetry.longitude ∧
      (handleGpsRaw m now s).telemetry.altitude = s.telemetry.altitude ∧
      (handleGpsRaw m now s).telemetry.velocityX = s.telemetry.velocityX ∧
      (handleGpsRaw m now s).telemetry.velocityY = s.telemetry.velocityY ∧
      (handleGpsRaw m now s).telemetry.velocityZ = s.telemetry.velocityZ ∧
      (handleGpsRaw m now s).telemetry.roll = s.telemetry.roll ∧
      (handleGpsRaw m now s).telemetry.pitch = s.telemetry.pitch ∧
      (handleGpsRaw m now s).telemetry.yaw = s.telemetry.yaw ∧
      (handleGpsRaw m now s).telemetry.heading = s.telemetry.heading ∧
      (handleGpsRaw m now s).telemetry.groundSpeed = s.telemetry.groundSpeed ∧
      (handleGpsRaw m now s).telemetry.verticalSpeed = s.telemetry.verticalSpeed ∧
      (handleGpsRaw m now s).telemetry.batteryVoltage = s.telemetry.batteryVoltage ∧
      (handleGpsRaw m now s).telemetry.batteryRemaining = s.telemetry.batteryRemaining ∧
      (handleGpsRaw m now s).telemetry.batteryCurrent = s.telemetry.batteryCurrent ∧
      (handleGpsRaw m now s).telemetry.sensorsHealthy = s.telemetry.sensorsHealthy ∧
      (handleGpsRaw m now s).telemetry.customMode = s.telemetry.customMode ∧
      (handleGpsRaw m now s).telemetry.baseMode = s.telemetry.baseMode ∧
      connectionAndMissionFrame s (handleGpsRaw m now s)) := by
  refine ⟨?_, ?_, ?_, ?_, ?_⟩ <;>
    · intro m now s
      repeat' apply And.intro
      all_goals rfl

/-- The `handleMissionRequestInt` handler touches only the uploading flag and the
completion signal, never the mission-progress fields. -/
lemma missionRequestInt_progress (m : MessageMissionRequestInt)
    (sendOk : Bool) (s : ClientState) :
    (handleMissionRequestInt m sendOk s).1.missionState.totalWaypoints =
      s.missionState.totalWaypoints ∧
    (handleMissionRequestInt m sendOk s).1.missionState.missionActive =
      s.missionState.missionActive := by
  unfold handleMissionRequestInt
  split
  · exact ⟨rfl, rfl⟩
  · split
    · split
      · exact ⟨rfl, rfl⟩
      · split <;> exact ⟨rfl, rfl⟩
    · exact ⟨rfl, rfl⟩

/-- The `handleMissionAck` handler touches only the uploading flag and the completion
signal, never the mission-progress fields. -/
lemma missionAck_progress (m : MessageMissionAck) (s : ClientState) :
    (handleMissionAck m s).1.missionState.totalWaypoints =
      s.missionState.totalWaypoints ∧
    (handleMissionAck m s).1.missionState.missionActive =
      s.missionState.missionActive := by
  unfold handleMissionAck
  split
  · split <;> exact ⟨rfl, rfl⟩
  · exact ⟨rfl, rfl⟩

/-- The `UploadMission` prefix writes the session fields (`Waypoints`, `TotalCount`,
`CurrentIndex`, flags) but never the mission-progress fields. -/
lemma uploadMissionStart_progress (wps : List Waypoint) (sendOk : Bool)
    (s : ClientState) :
    (uploadMissionStart wps sendOk s).1.missionState.totalWaypoints =
      s.missionState.totalWaypoints ∧
    (uploadMissionStart wps sendOk s).1.missionState.missionActive =
      s.missionState.missionActive := by
  unfold uploadMissionStart
  split
  · exact ⟨rfl, rfl⟩
  · split <;> exact ⟨rfl, rfl⟩

/-- The `IsConnected` side effect never changes the mission state. -/
lemma IsConnected_fst_missionState (s : ClientState) (now : Int) :
    (IsConnected s now).1.missionState = s.missionState :=
  (IsConnected_fst_frame s now).2.2.2.2

/-- Commands never change the mission state. -/
lemma runCommand_fst_missionState (s : ClientState) (now : Int)
    (sendOk : Bool) (msg : Nat → OutMsg) :
    (runCommand s now sendOk msg).1.missionState = s.missionState := by
  cases h : (IsConnected s now).2 <;>
    simp [runCommand, h, IsConnected_fst_missionState s now]

/-- No step of the client writes `MissionState.TotalWaypoints`. -/
lemma totalWaypoints_step (e : Step) (s : ClientState) :
    (stepFn e s).missionState.totalWaypoints =
      s.missionState.totalWaypoints := by
  cases e with
  | missionRequestInt m sendOk => exact (missionRequestInt_progress m sendOk s).1
  | missionAck m => exact (missionAck_progress m s).1
  | uploadStart wps sendOk => exact (uploadMissionStart_progress wps sendOk s).1
  | connectedRead now =>
      exact congrArg MissionState.totalWaypoints (IsConnected_fst_missionState s now)
  | armCmd now sendOk =>
      exact congrArg MissionState.totalWaypoints (runCommand_fst_missionState s now sendOk _)
  | disarmCmd now sendOk =>
      exact congrArg MissionState.totalWaypoints (runCommand_fst_missionState s now sendOk _)
  | setModeCmd px4Mode now sendOk =>
      exact congrArg MissionState.totalWaypoints (runCommand_fst_missionState s now sendOk _)
  | takeoffCmd altitude now sendOk =>
      exact congrArg MissionState.totalWaypoints (runCommand_fst_missionState s now sendOk _)
  | landCmd now sendOk =>
      exact congrArg MissionState.totalWaypoints (runCommand_fst_missionState s now sendOk _)
  | rtlCmd now sendOk =>
      exact congrArg MissionState.totalWaypoints (runCommand_fst_missionState s now sendOk _)
  | goToCmd la lo al now sendOk =>
      exact congrArg MissionState.totalWaypoints (runCommand_fst_missionState s now sendOk _)
  | clearMissionCmd now sendOk =>
      exact congrArg MissionState.totalWaypoints (runCommand_fst_missionState s now sendOk _)
  | startMissionCmd i now sendOk =>
      exact congrArg MissionState.totalWaypoints (runCommand_fst_missionState s now sendOk _)
  | _ => rfl

/-- C10: no operation or handler ever writes `MissionState.TotalWaypoints`
(`UploadMission` writes only the separate `TotalCount`), so
`GetMissionProgress` reports 0 total waypoints in every reachable state;
every step either leaves `MissionActive` unchanged or sets it to true,
and `handleMissionCurrent` sets it to true on every message (its unsigned
sequence number is always ≥ 0). -/
theorem mission_progress_total_invariant :
    (∀ s : ClientState, Reachable s →
      s.missionState.totalWaypoints = 0 ∧ (GetMissionProgress s).2.1 = 0) ∧
    (∀ (e : Step) (s : ClientState),
      (stepFn e s).missionState.missionActive = s.missionState.missionActive ∨
      (stepFn e s).missionState.missionActive = true) ∧
    (∀ (m : MessageMissionCurrent) (s : ClientState),
      (handleMissionCurrent m s).missionState.missionActive = true) := by
  refine ⟨?_, ?_, ?_⟩
  · intro s hr
    have h : s.missionState.totalWaypoints = 0 := by
      induction hr with
      | init now => rfl
      | step e h ih => rw [totalWaypoints_step]; exact ih
    exact ⟨h, h⟩
  · intro e s
    cases e with
    | missionCurrent m => exact Or.inr (by simp [stepFn, handleMissionCurrent])
    | missionRequestInt m sendOk => exact Or.inl (missionRequestInt_progress m sendOk s).2
    | missionAck m => exact Or.inl (missionAck_progress m s).2
    | uploadStart wps sendOk => exact Or.inl (uploadMissionStart_progress wps sendOk s).2
    | connectedRead now =>
        exact Or.inl (congrArg MissionState.missionActive (IsConnected_fst_missionState s now))
    | armCmd now sendOk =>
        exact Or.inl (congrArg MissionState.missionActive (runCommand_fst_missionState s now sendOk _))
    | disarmCmd now sendOk =>
        exact Or.inl (congrArg MissionState.missionActive (runCommand_fst_missionState s now sendOk _))
    | setModeCmd px4Mode now sendOk =>
        exact Or.inl (congrArg MissionState.missionActive (runCommand_fst_missionState s now sendOk _))
    | takeoffCmd altitude now sendOk =>
        exact Or.inl (congrArg MissionState.missionActive (runCommand_fst_missionState s now sendOk _))
    | landCmd now sendOk =>
        exact Or.inl (congrArg MissionState.missionActive (runCommand_fst_missionState s now sendOk _))
    | rtlCmd now sendOk =>
        exact Or.inl (congrArg MissionState.missionActive (runCommand_fst_missionState s now sendOk _))
    | goToCmd la lo al now sendOk =>
        exact Or.inl (congrArg MissionState.missionActive (runCommand_fst_missionState s now sendOk _))
    | clearMissionCmd now sendOk =>
        exact Or.inl (congrArg MissionState.missionActive (runCommand_fst_missionState s now sendOk _))
    | startMissionCmd i now sendOk =>
        exact Or.inl (congrArg MissionState.missionActive (runCommand_fst_missionState s now sendOk _))
    | _ => exact Or.inl rfl
  · intro m s
    simp [handleMissionCurrent]

/-- Witness for C10: the fresh client is reachable and reports 0 total
waypoints. -/
theorem mission_progress_total_invariant_witness :
    (GetMissionProgress (initialClientState 0)).2.1 = 0 :=
  (mission_progress_total_invariant.1 (initialClientState 0)
    (Reachable.init 0)).2

end Flightpath
